import Mathlib

/-!
Shallow embedding of the PremiumWebSuite (BioClub+) backend routes and
services, together with proofs about the commission/withdrawal lifecycle,
coupon usage ledger, LGPD erasure workflow, referral resolution at
registration, and the central error handler.

Route handlers are embedded as pure functions over explicit state records
(the relevant database tables as lists of rows).  An HTTP handler that can
`throw createError(msg, code)` is embedded as a function returning the
post-state paired with `Except ApiError α`; every `throw` leaves the state
unchanged because no write precedes it unless noted otherwise.  Monetary
values (JS numbers / Prisma Decimal) are embedded as `ℚ`, timestamps
(JS Date / `Date.now()` milliseconds) as `ℤ`.  Values produced by external
effects (crypto randomness, bcrypt, uuid) are passed in as oracle
parameters (`freshId`, `hashedPassword`, ...).
-/

namespace PremiumWebSuite

/-- Error created by `createError(message, statusCode)` in
`src/backend/src/middleware/errorHandler.ts`. -/
structure ApiError where
  message : String
  statusCode : Nat
deriving Repr, DecidableEq

/-- `CommissionStatus` enum of the Prisma schema:
status ∈ {PENDING, AVAILABLE, REQUESTED, PAID, CANCELED}. -/
inductive CommissionStatus
  | PENDING
  | AVAILABLE
  | REQUESTED
  | PAID
  | CANCELED
deriving Repr, DecidableEq

/-- A `Commission` row (the fields read by the commission routes). -/
structure Commission where
  id : String
  earnerId : String
  amount : ℚ
  status : CommissionStatus
deriving Repr, DecidableEq

/-- `WithdrawalStatus` enum of the Prisma schema. -/
inductive WithdrawalStatus
  | PENDING
  | APPROVED
  | PROCESSING
  | PAID
  | REJECTED
  | CANCELED
deriving Repr, DecidableEq

/-- The status filter `{ in: ['PENDING', 'APPROVED', 'PROCESSING'] }` used
both by the withdraw route and by `LGPDService.canEraseUserData`. -/
def WithdrawalStatus.isNonTerminal : WithdrawalStatus → Bool
  | .PENDING => true
  | .APPROVED => true
  | .PROCESSING => true
  | _ => false

/-- A `BankData` row (one per user, `findUnique({ where: { userId } })`). -/
structure BankData where
  userId : String
  bankCode : String
  bankName : String
  agency : String
  account : String
  accountType : String
  holderName : String
  holderCpf : String
  pixKey : Option String
  pixKeyType : Option String
deriving Repr, DecidableEq

/-- The denormalized copy of bank details stored on a withdrawal request
by POST /api/commissions/withdraw. -/
structure BankSnapshot where
  bankCode : String
  bankName : String
  agency : String
  account : String
  accountType : String
  holderName : String
  holderCpf : String
  pixKey : Option String
  pixKeyType : Option String
deriving Repr, DecidableEq

/-- The literal field-by-field copy written by the withdraw route. -/
def BankData.snapshot (b : BankData) : BankSnapshot :=
  { bankCode := b.bankCode
    bankName := b.bankName
    agency := b.agency
    account := b.account
    accountType := b.accountType
    holderName := b.holderName
    holderCpf := b.holderCpf
    pixKey := b.pixKey
    pixKeyType := b.pixKeyType }

/-- A `WithdrawalRequest` row. -/
structure WithdrawalRequest where
  id : String
  userId : String
  amount : ℚ
  status : WithdrawalStatus
  bankData : BankSnapshot
  adminNotes : Option String := none
  processedAt : Option Int := none
  paidAt : Option Int := none
deriving Repr, DecidableEq

/-- The slice of the database touched by the commission / withdrawal
routes (`src/routes/commission.ts` and the admin withdrawal route). -/
structure CommState where
  commissions : List Commission
  bankDatas : List BankData
  withdrawals : List WithdrawalRequest
deriving Repr, DecidableEq

/-- `prisma.commission.aggregate({ where: { earnerId, status: 'AVAILABLE' },
_sum: { amount } })` followed by `|| 0`. -/
def availableBalance (s : CommState) (userId : String) : ℚ :=
  ((s.commissions.filter
      (fun c => c.earnerId == userId && c.status == CommissionStatus.AVAILABLE)).map
    (·.amount)).sum

/-- Number of non-terminal withdrawal requests of a user. -/
def nonTerminalCount (s : CommState) (userId : String) : Nat :=
  (s.withdrawals.filter
    (fun w => w.userId == userId && w.status.isNonTerminal)).length

/-- POST /api/commissions/withdraw.  `minWithdrawal` is
`Number(process.env.MIN_WITHDRAWAL_AMOUNT || 50)`; `freshId` stands for the
id generated for the created row.  Every rejection happens before the
insert, so the state is returned unchanged on error. -/
def withdraw (minWithdrawal : ℚ) (s : CommState) (userId : String)
    (amount : ℚ) (freshId : String) :
    CommState × Except ApiError WithdrawalRequest :=
  -- `if (!amount || amount <= 0)`
  if amount ≤ 0 then
    (s, .error ⟨"Valor inválido para saque", 400⟩)
  -- `if (amount < minWithdrawal)`
  else if amount < minWithdrawal then
    (s, .error ⟨"Valor mínimo para saque", 400⟩)
  -- `if (amount > balance)`
  else if availableBalance s userId < amount then
    (s, .error ⟨"Saldo insuficiente", 400⟩)
  else
    match s.bankDatas.find? (fun b => b.userId == userId) with
    | none => (s, .error ⟨"Dados bancários não cadastrados", 400⟩)
    | some bankData =>
      -- `findFirst({ where: { userId, status: { in: [PENDING, APPROVED, PROCESSING] } } })`
      match s.withdrawals.find?
          (fun w => w.userId == userId && w.status.isNonTerminal) with
      | some _ =>
        (s, .error ⟨"Você já possui uma solicitação de saque pendente", 400⟩)
      | none =>
        let req : WithdrawalRequest :=
          { id := freshId
            userId := userId
            amount := amount
            status := .PENDING
            bankData := bankData.snapshot }
        ({ s with withdrawals := s.withdrawals ++ [req] }, .ok req)

/-- The whitelist check `['APPROVED', 'REJECTED', 'PAID'].includes(status)`
of PATCH /api/admin/withdrawals/:id, returning the parsed status. -/
def parseAdminStatus (status : String) : Option WithdrawalStatus :=
  if status = "APPROVED" then some .APPROVED
  else if status = "REJECTED" then some .REJECTED
  else if status = "PAID" then some .PAID
  else none

/-- PATCH /api/admin/withdrawals/:id.  The whitelist check runs before the
row is even looked up; the update itself never inspects the current
status.  `now` embeds `new Date()`. -/
def updateWithdrawal (s : CommState) (withdrawalId : String)
    (status : String) (adminNotes : Option String) (now : Int) :
    CommState × Except ApiError WithdrawalRequest :=
  match parseAdminStatus status with
  | none => (s, .error ⟨"Status inválido", 400⟩)
  | some newStatus =>
    match s.withdrawals.find? (fun w => w.id == withdrawalId) with
    | none => (s, .error ⟨"Solicitação de saque não encontrada", 404⟩)
    | some w =>
      let w' : WithdrawalRequest :=
        { w with
          status := newStatus
          -- `if (adminNotes) updateData.adminNotes = adminNotes`
          adminNotes :=
            match adminNotes with
            | some n => if n = "" then w.adminNotes else some n
            | none => w.adminNotes
          paidAt := if newStatus = .PAID then some now else w.paidAt
          processedAt :=
            if newStatus = .APPROVED then some now else w.processedAt }
      ({ s with
          withdrawals :=
            s.withdrawals.map (fun x => if x.id == withdrawalId then w' else x) },
        .ok w')

/-! ### Theorems about the withdrawal lifecycle -/

/-- Characterization of the success case of POST /api/commissions/withdraw. -/
theorem withdraw_ok_iff (minWithdrawal : ℚ) (s : CommState) (userId : String)
    (amount : ℚ) (freshId : String) (req : WithdrawalRequest) :
    (withdraw minWithdrawal s userId amount freshId).2 = .ok req ↔
      ¬ amount ≤ 0 ∧ ¬ amount < minWithdrawal ∧
      ¬ availableBalance s userId < amount ∧
      ∃ b, s.bankDatas.find? (fun x => x.userId == userId) = some b ∧
        s.withdrawals.find? (fun w => w.userId == userId && w.status.isNonTerminal)
          = none ∧
        req = { id := freshId, userId := userId, amount := amount,
                status := .PENDING, bankData := b.snapshot } := by
  unfold withdraw
  split_ifs with h1 h2 h3
  · simp [h1]
  · simp [h1, h2]
  · simp [h1, h2, h3]
  · cases hfind : s.bankDatas.find? (fun b => b.userId == userId) with
    | none => simp [h1, h2, h3, hfind]
    | some b =>
      simp only [hfind]
      cases hnt : s.withdrawals.find?
          (fun w => w.userId == userId && w.status.isNonTerminal) with
      | some w =>
        simp [h1, h2, h3, hnt]
      | none =>
        simp [h1, h2, h3, hnt, eq_comm]

/-- On success the new request is appended to the withdrawal table and
nothing else changes. -/
theorem withdraw_ok_state (minWithdrawal : ℚ) (s : CommState) (userId : String)
    (amount : ℚ) (freshId : String) (req : WithdrawalRequest)
    (h : (withdraw minWithdrawal s userId amount freshId).2 = .ok req) :
    (withdraw minWithdrawal s userId amount freshId).1
      = { s with withdrawals := s.withdrawals ++ [req] } := by
  rcases (withdraw_ok_iff minWithdrawal s userId amount freshId req).mp h with
    ⟨h1, h2, h3, b, hfind, hnt, hreq⟩
  unfold withdraw
  simp [h1, h2, h3, hfind, hnt, hreq]

/-- On error the state is returned unchanged and the status code is the one
of the first failing check; every check of the withdraw route rejects with
status 400. -/
theorem withdraw_error_cases (minWithdrawal : ℚ) (s : CommState) (userId : String)
    (amount : ℚ) (freshId : String) (e : ApiError)
    (h : (withdraw minWithdrawal s userId amount freshId).2 = .error e) :
    (withdraw minWithdrawal s userId amount freshId).1 = s ∧ e.statusCode = 400 := by
  unfold withdraw at h ⊢
  split_ifs at h ⊢ with h1 h2 h3
  · injection h with h2
    subst h2
    exact ⟨by trivial, by trivial⟩
  · injection h with h2
    subst h2
    exact ⟨by trivial, by trivial⟩
  · injection h with h2
    subst h2
    exact ⟨by trivial, by trivial⟩
  · cases hfind : s.bankDatas.find? (fun b => b.userId == userId) with
    | none =>
      simp only [hfind] at h ⊢
      injection h with h2
      subst h2
      exact ⟨by trivial, by trivial⟩
    | some b =>
      simp only [hfind] at h ⊢
      cases hnt : s.withdrawals.find?
          (fun w => w.userId == userId && w.status.isNonTerminal) with
      | some w =>
        simp only [hnt] at h ⊢
        injection h with h2
        subst h2
        exact ⟨by trivial, by trivial⟩
      | none =>
        simp only [hnt] at h
        exact Except.noConfusion h

/-- C1: POST /api/commissions/withdraw rejects with a 400 error and leaves
the withdrawal table untouched whenever the requested amount exceeds the
sum of the user's AVAILABLE commissions, and likewise when the amount is
not positive or below the configured minimum. -/
theorem withdraw_rejects_excessive_amount (minWithdrawal : ℚ) (s : CommState)
    (userId : String) (amount : ℚ) (freshId : String)
    (h : availableBalance s userId < amount ∨ amount ≤ 0 ∨ amount < minWithdrawal) :
    (withdraw minWithdrawal s userId amount freshId).1 = s ∧
    ∃ e, (withdraw minWithdrawal s userId amount freshId).2 = Except.error e ∧
      e.statusCode = 400 := by
  cases hres : (withdraw minWithdrawal s userId amount freshId).2 with
  | ok req =>
    rcases (withdraw_ok_iff minWithdrawal s userId amount freshId req).mp hres with
      ⟨h1, h2, h3, _⟩
    rcases h with h | h | h
    · exact absurd h h3
    · exact absurd h h1
    · exact absurd h h2
  | error e =>
    rcases withdraw_error_cases minWithdrawal s userId amount freshId e hres with
      ⟨hst, hcode⟩
    exact ⟨hst, e, rfl, hcode⟩

/-- Witness for C1: an empty ledger has available balance 0, so a
withdrawal of 100 is rejected with status 400. -/
theorem withdraw_rejects_excessive_amount_witness :
    (availableBalance ⟨[], [], []⟩ "u1" < 100 ∨ (100 : ℚ) ≤ 0 ∨ (100 : ℚ) < 50) ∧
    ((withdraw 50 ⟨[], [], []⟩ "u1" 100 "w1").1 = ⟨[], [], []⟩ ∧
      ∃ e, (withdraw 50 ⟨[], [], []⟩ "u1" 100 "w1").2 = Except.error e ∧
        e.statusCode = 400) :=
  ⟨Or.inl (by decide),
    withdraw_rejects_excessive_amount 50 ⟨[], [], []⟩ "u1" 100 "w1"
      (Or.inl (by decide))⟩

/-- C10: the admin withdrawal-update endpoint rejects every status outside
the whitelist {APPROVED, REJECTED, PAID} with a 400 error, before looking
anything up, leaving the state unchanged; no request can be moved to
PROCESSING or CANCELED through it. -/
theorem updateWithdrawal_requires_whitelisted_status (s : CommState)
    (withdrawalId status : String) (adminNotes : Option String) (now : Int)
    (h : status ≠ "APPROVED" ∧ status ≠ "REJECTED" ∧ status ≠ "PAID") :
    updateWithdrawal s withdrawalId status adminNotes now
      = (s, .error ⟨"Status inválido", 400⟩) := by
  obtain ⟨h1, h2, h3⟩ := h
  unfold updateWithdrawal parseAdminStatus
  simp [h1, h2, h3]

/-- Witness for C10: the status "PROCESSING" is rejected with 400. -/
theorem updateWithdrawal_requires_whitelisted_status_witness :
    ("PROCESSING" ≠ "APPROVED" ∧ "PROCESSING" ≠ "REJECTED" ∧ "PROCESSING" ≠ "PAID") ∧
    updateWithdrawal ⟨[], [], []⟩ "w1" "PROCESSING" none 0
      = (⟨[], [], []⟩, .error ⟨"Status inválido", 400⟩) :=
  ⟨by decide,
    updateWithdrawal_requires_whitelisted_status ⟨[], [], []⟩ "w1" "PROCESSING"
      none 0 (by decide)⟩

/-- A concrete bank-data row used by the counterexample runs below. -/
def exBank : BankData :=
  { userId := "u1", bankCode := "001", bankName := "Banco", agency := "0001",
    account := "12345", accountType := "corrente", holderName := "User One",
    holderCpf := "00000000000", pixKey := none, pixKeyType := none }

/-- A ledger with a single AVAILABLE commission of 200 for user u1, bank
data on file and no withdrawal requests. -/
def exState : CommState :=
  { commissions := [{ id := "c1", earnerId := "u1", amount := 200, status := .AVAILABLE }]
    bankDatas := [exBank]
    withdrawals := [] }

/-- A ledger whose only withdrawal request is already PAID. -/
def exPaidState : CommState :=
  { commissions := []
    bankDatas := [exBank]
    withdrawals := [{ id := "w1", userId := "u1", amount := 100, status := .PAID,
                      bankData := exBank.snapshot, adminNotes := none,
                      processedAt := none, paidAt := some 0 }] }

/-- C2: PATCH /api/admin/withdrawals/:id never inspects the current status
of the request, so a request that has already reached PAID is happily
moved back to APPROVED: the update succeeds and the stored status changes.
This contradicts the spec's "after a withdrawal reaches PAID, no further
status transition is permitted". -/
theorem paid_withdrawal_reapproved_by_admin :
    ((updateWithdrawal exPaidState "w1" "APPROVED" none 7).2
        = Except.ok { id := "w1", userId := "u1", amount := 100, status := .APPROVED,
                      bankData := exBank.snapshot, adminNotes := none,
                      processedAt := some 7, paidAt := some 0 }) ∧
    (updateWithdrawal exPaidState "w1" "APPROVED" none 7).1.withdrawals.map
        (fun w => w.status) = [.APPROVED] := by
  constructor <;>
    simp [updateWithdrawal, parseAdminStatus, exPaidState, exBank,
      List.find?, BankData.snapshot]

/-- C3 counterexample: starting from a ledger with available balance 200
and no requests, the sequence withdraw(100); admin REJECTED; withdraw(60);
admin APPROVED(first request) leaves user u1 with TWO non-terminal
withdrawal requests, because the admin endpoint may move a terminal
(REJECTED) request back to APPROVED.  The at-most-one-non-terminal
invariant is therefore violated in a state reachable by sequential
execution of the documented operations. -/
theorem two_nonterminal_withdrawals_reachable :
    nonTerminalCount
      (updateWithdrawal
        (withdraw 50
          (updateWithdrawal
            (withdraw 50 exState "u1" 100 "w1").1
            "w1" "REJECTED" none 0).1
          "u1" 60 "w2").1
        "w1" "APPROVED" none 1).1
      "u1" = 2 := by
  norm_num [nonTerminalCount, withdraw, updateWithdrawal, availableBalance,
    parseAdminStatus, exState, exBank, List.filter, List.find?,
    WithdrawalStatus.isNonTerminal, BankData.snapshot]
  simp

/-- C3 amended: the withdraw operation itself enforces the invariant — it
rejects with 400 (leaving the state unchanged) whenever a non-terminal
request already exists for the user, and otherwise appends exactly one new
PENDING request carrying a point-in-time copy of the user's bank data,
leaving the user with exactly one non-terminal request.  (The invariant
does not survive admin updates, see the counterexample.) -/
theorem withdraw_preserves_single_nonterminal (minWithdrawal : ℚ)
    (s : CommState) (userId : String) (amount : ℚ) (freshId : String) :
    ((∃ w ∈ s.withdrawals, w.userId = userId ∧ w.status.isNonTerminal = true) →
      (withdraw minWithdrawal s userId amount freshId).1 = s ∧
      ∃ e, (withdraw minWithdrawal s userId amount freshId).2 = Except.error e ∧
        e.statusCode = 400) ∧
    (∀ req, (withdraw minWithdrawal s userId amount freshId).2 = .ok req →
      (withdraw minWithdrawal s userId amount freshId).1
          = { s with withdrawals := s.withdrawals ++ [req] } ∧
      req.status = .PENDING ∧ req.userId = userId ∧ req.amount = amount ∧
      (∃ b, s.bankDatas.find? (fun x => x.userId == userId) = some b ∧
        req.bankData = b.snapshot) ∧
      nonTerminalCount (withdraw minWithdrawal s userId amount freshId).1 userId
          = 1) := by
  constructor
  · intro hex
    cases hres : (withdraw minWithdrawal s userId amount freshId).2 with
    | ok req =>
      rcases (withdraw_ok_iff minWithdrawal s userId amount freshId req).mp hres with
        ⟨_, _, _, b, _, hnt, _⟩
      rcases hex with ⟨w, hw, hwid, hwnt⟩
      have : ∃ x ∈ s.withdrawals,
          (x.userId == userId && x.status.isNonTerminal) = true :=
        ⟨w, hw, by simp [hwid, hwnt]⟩
      rw [← List.find?_isSome] at this
      rw [hnt] at this
      simp at this
    | error e =>
      rcases withdraw_error_cases minWithdrawal s userId amount freshId e hres with
        ⟨hst, hcode⟩
      exact ⟨hst, e, rfl, hcode⟩
  · intro req hres
    rcases (withdraw_ok_iff minWithdrawal s userId amount freshId req).mp hres with
      ⟨h1, h2, h3, b, hfind, hnt, hreq⟩
    have hstate := withdraw_ok_state minWithdrawal s userId amount freshId req hres
    refine ⟨hstate, by rw [hreq], by rw [hreq], by rw [hreq],
      ⟨b, hfind, by rw [hreq]⟩, ?_⟩
    rw [hstate]
    have hempty : s.withdrawals.filter
        (fun w => w.userId == userId && w.status.isNonTerminal) = [] := by
      rw [List.eq_nil_iff_forall_not_mem]
      intro x hx
      rcases List.mem_filter.mp hx with ⟨hmem, hp⟩
      have := List.find?_eq_none.mp hnt x hmem
      exact this hp
    simp only [nonTerminalCount, List.filter_append, hempty, List.nil_append]
    simp [hreq, WithdrawalStatus.isNonTerminal]

/-- A ledger where user u1 already has a PENDING withdrawal request. -/
def exPendingState : CommState :=
  { commissions := []
    bankDatas := [exBank]
    withdrawals := [{ id := "w1", userId := "u1", amount := 100, status := .PENDING,
                      bankData := exBank.snapshot }] }

/-- Witness for C3 amended: with a non-terminal PENDING request on file a
second withdrawal is rejected with 400 and the ledger is unchanged. -/
theorem withdraw_preserves_single_nonterminal_witness :
    (withdraw 50 exPendingState "u1" 100 "w2").1 = exPendingState ∧
    ∃ e, (withdraw 50 exPendingState "u1" 100 "w2").2 = Except.error e ∧
      e.statusCode = 400 :=
  (withdraw_preserves_single_nonterminal 50 exPendingState "u1" 100 "w2").1
    ⟨{ id := "w1", userId := "u1", amount := 100, status := .PENDING,
       bankData := exBank.snapshot },
      by simp [exPendingState], rfl, rfl⟩

/-! ### Store: products, coupons, orders -/

/-- `String.prototype.toUpperCase()` (ASCII, which is all the referral and
coupon codes generated by the system use). -/
def toUpperCase (s : String) : String :=
  String.mk (s.data.map Char.toUpper)

/-- JavaScript truthiness of an optional string request field
(`undefined`, `null` and `''` are falsy). -/
def jsTruthy : Option String → Bool
  | none => false
  | some st => st ≠ ""

/-- `CouponType` enum of the Prisma schema. -/
inductive CouponType
  | PERCENTAGE
  | FIXED_AMOUNT
deriving Repr, DecidableEq

/-- A `Coupon` row.  `minimumAmount` and `maximumDiscount` are nullable
Prisma `Decimal`s: as objects they are truthy exactly when non-null.
`usageLimitPerUser` is a nullable `Int`. -/
structure Coupon where
  id : String
  code : String
  name : String
  type : CouponType
  value : ℚ
  minimumAmount : Option ℚ
  maximumDiscount : Option ℚ
  usageLimitPerUser : Option Nat
  isActive : Bool
  startDate : Int
  endDate : Int
deriving Repr, DecidableEq

/-- A `UserCoupon` row, unique per `(userId, couponId)`. -/
structure UserCoupon where
  userId : String
  couponId : String
  usageCount : Nat
deriving Repr, DecidableEq

/-- A `Product` row (the fields read by POST /api/orders). -/
structure Product where
  id : String
  name : String
  price : ℚ
  isActive : Bool
  trackStock : Bool
  stock : Int
deriving Repr, DecidableEq

/-- One entry of the `items` array of the POST /api/orders body. -/
structure OrderItemInput where
  productId : String
  quantity : Int
deriving Repr, DecidableEq

/-- An `OrderItem` row created with the order. -/
structure OrderItem where
  productId : String
  quantity : Int
  price : ℚ
deriving Repr, DecidableEq

/-- An `Order` row as created by POST /api/orders. -/
structure Order where
  id : String
  userId : String
  orderNumber : String
  subtotal : ℚ
  shippingCost : ℚ
  discount : ℚ
  total : ℚ
  status : String
  paymentStatus : String
  paymentMethod : String
  shippingAddress : String
  couponCode : Option String
  items : List OrderItem
  createdAt : Int
deriving Repr, DecidableEq

/-- The slice of the database touched by the order and coupon routes. -/
structure StoreState where
  products : List Product
  coupons : List Coupon
  userCoupons : List UserCoupon
  orders : List Order
deriving Repr, DecidableEq

/-- `coupon.usageLimitPerUser || 1`: both `null` and `0` are falsy in
JavaScript, so both are coerced to 1. -/
def effectiveUsageLimit : Option Nat → Nat
  | none => 1
  | some n => if n = 0 then 1 else n

/-- `prisma.userCoupon.findUnique({ where: { userId_couponId } })`. -/
def findUserCoupon (l : List UserCoupon) (userId couponId : String) :
    Option UserCoupon :=
  l.find? (fun uc => uc.userId == userId && uc.couponId == couponId)

/-- `userCoupon?.usageCount || 0` for a `(userId, couponId)` pair. -/
def usageCountOf (s : StoreState) (userId couponId : String) : Nat :=
  match findUserCoupon s.userCoupons userId couponId with
  | some uc => uc.usageCount
  | none => 0

/-- The item-validation loop of POST /api/orders: resolves each product
(`findFirst({ id, isActive: true })`, 404 if missing), checks tracked
stock (400 on shortage), and accumulates the subtotal. -/
def validateItems (s : StoreState) :
    List OrderItemInput → Except ApiError (ℚ × List OrderItem)
  | [] => .ok (0, [])
  | item :: rest =>
    match s.products.find? (fun p => p.id == item.productId && p.isActive) with
    | none => .error ⟨"Produto não encontrado", 404⟩
    | some p =>
      if p.trackStock && decide (p.stock < item.quantity) then
        .error ⟨"Estoque insuficiente", 400⟩
      else
        match validateItems s rest with
        | .error e => .error e
        | .ok (sub, its) =>
          .ok (p.price * (item.quantity : ℚ) + sub,
            { productId := p.id, quantity := item.quantity, price := p.price } :: its)

/-- The coupon section of POST /api/orders (reached when `couponCode` is
truthy): resolve the coupon with its active window, check the per-user
usage limit, compute the discount, then check the minimum amount.
Returns the discount. -/
def computeOrderDiscount (now : Int) (s : StoreState) (userId : String)
    (subtotal : ℚ) (couponCode : String) : Except ApiError (ℚ × Coupon) :=
  match s.coupons.find? (fun c => c.code == couponCode && c.isActive &&
      decide (c.startDate ≤ now) && decide (now ≤ c.endDate)) with
  | none => .error ⟨"Cupom inválido ou expirado", 400⟩
  | some coupon =>
    -- `if (userCouponUsage && userCouponUsage.usageCount >= (coupon.usageLimitPerUser || 1))`
    match findUserCoupon s.userCoupons userId coupon.id with
    | some userCouponUsage =>
      if userCouponUsage.usageCount ≥ effectiveUsageLimit coupon.usageLimitPerUser then
        .error ⟨"Limite de uso do cupom excedido", 400⟩
      else
        couponDiscountValue subtotal coupon
    | none => couponDiscountValue subtotal coupon
where
  /-- Discount computation followed by the minimum-amount check. -/
  couponDiscountValue (subtotal : ℚ) (coupon : Coupon) :
      Except ApiError (ℚ × Coupon) :=
    let discount : ℚ :=
      match coupon.type with
      | .PERCENTAGE =>
        let d := subtotal * coupon.value / 100
        match coupon.maximumDiscount with
        | some m => if m < d then m else d
        | none => d
      | .FIXED_AMOUNT => coupon.value
    -- `if (coupon.minimumAmount && subtotal < Number(coupon.minimumAmount))`
    match coupon.minimumAmount with
    | some m =>
      if subtotal < m then .error ⟨"Valor mínimo para usar o cupom", 400⟩
      else .ok (discount, coupon)
    | none => .ok (discount, coupon)

/-- The `prisma.userCoupon.upsert` performed after the order insert. -/
def upsertUserCoupon (s : StoreState) (userId couponId : String) : StoreState :=
  if (findUserCoupon s.userCoupons userId couponId).isSome then
    { s with userCoupons := s.userCoupons.map (fun uc =>
        if uc.userId == userId && uc.couponId == couponId then
          { uc with usageCount := uc.usageCount + 1 }
        else uc) }
  else
    { s with userCoupons :=
        s.userCoupons ++ [{ userId := userId, couponId := couponId, usageCount := 1 }] }

/-- POST /api/orders.  `freshOrderId` stands for the generated row id and
`orderNumber` for `generateOrderNumber()`.  The userCoupon upsert happens
after the order insert and resolves the coupon again, this time by code
alone (`findUnique({ where: { code } })`); the non-null assertion `!.id`
of the source would crash with an internal error if that lookup failed. -/
def createOrder (now : Int) (s : StoreState) (userId : String)
    (items : List OrderItemInput) (shippingAddress paymentMethod : Option String)
    (couponCode : Option String) (freshOrderId orderNumber : String) :
    StoreState × Except ApiError Order :=
  if items.isEmpty then
    (s, .error ⟨"Itens do pedido são obrigatórios", 400⟩)
  else if ¬ jsTruthy shippingAddress then
    (s, .error ⟨"Endereço de entrega é obrigatório", 400⟩)
  else if ¬ jsTruthy paymentMethod then
    (s, .error ⟨"Método de pagamento é obrigatório", 400⟩)
  else
    match validateItems s items with
    | .error e => (s, .error e)
    | .ok (subtotal, validatedItems) =>
      match (if jsTruthy couponCode then
          (computeOrderDiscount now s userId subtotal (couponCode.getD "")).map
            (fun dc => dc.1)
        else .ok 0) with
      | .error e => (s, .error e)
      | .ok discount =>
        let shippingCost : ℚ := 0
        let total := subtotal + shippingCost - discount
        let order : Order :=
          { id := freshOrderId
            userId := userId
            orderNumber := orderNumber
            subtotal := subtotal
            shippingCost := shippingCost
            discount := discount
            total := total
            status := "PENDING"
            paymentStatus := "PENDING"
            paymentMethod := paymentMethod.getD ""
            shippingAddress := shippingAddress.getD ""
            couponCode := couponCode
            items := validatedItems
            createdAt := now }
        let s1 : StoreState := { s with orders := s.orders ++ [order] }
        if jsTruthy couponCode then
          match s1.coupons.find? (fun c => c.code == couponCode.getD "") with
          | some cUp => (upsertUserCoupon s1 userId cUp.id, .ok order)
          | none => (s1, .error ⟨"Cannot read properties of null", 500⟩)
        else
          (s1, .ok order)

/-- The discount computation shared by POST /api/coupons/validate and the
coupon section of POST /api/orders: percentage of the total capped by
`maximumDiscount` when that is non-null, or the fixed amount. -/
def couponBaseDiscount (total : ℚ) (coupon : Coupon) : ℚ :=
  match coupon.type with
  | .PERCENTAGE =>
    match coupon.maximumDiscount with
    | some m => if m < total * coupon.value / 100 then m
                else total * coupon.value / 100
    | none => total * coupon.value / 100
  | .FIXED_AMOUNT => coupon.value

/-- POST /api/coupons/validate: resolves the (uppercased) code with its
active window, checks the per-user usage limit and the minimum amount,
computes the discount, and finally clamps it to the cart total
(`if (discount > cartTotal) discount = cartTotal`).  Returns the resolved
coupon together with the discount of the response. -/
def validateCoupon (now : Int) (s : StoreState) (userId : String)
    (code : Option String) (cartTotal : ℚ) : Except ApiError (Coupon × ℚ) :=
  if ¬ jsTruthy code then .error ⟨"Código do cupom é obrigatório", 400⟩
  else
    match s.coupons.find? (fun c => c.code == toUpperCase (code.getD "") &&
        c.isActive && decide (c.startDate ≤ now) && decide (now ≤ c.endDate)) with
    | none => .error ⟨"Cupom inválido ou expirado", 400⟩
    | some coupon =>
      if usageCountOf s userId coupon.id ≥ effectiveUsageLimit coupon.usageLimitPerUser then
        .error ⟨"Limite de uso do cupom excedido", 400⟩
      else if (match coupon.minimumAmount with
          | some m => decide (cartTotal < m)
          | none => false) then
        .error ⟨"Valor mínimo para usar o cupom", 400⟩
      else
        .ok (coupon,
          if cartTotal < couponBaseDiscount cartTotal coupon then cartTotal
          else couponBaseDiscount cartTotal coupon)

/-! ### Theorems about coupons -/

/-- The effective per-user limit used by the code is always at least 1. -/
theorem effectiveUsageLimit_pos (limit : Option Nat) :
    1 ≤ effectiveUsageLimit limit := by
  cases limit with
  | none => simp [effectiveUsageLimit]
  | some n =>
    cases n with
    | zero => simp [effectiveUsageLimit]
    | succ m =>
      simp only [effectiveUsageLimit, Nat.succ_ne_zero, if_false]
      omega

/-- The map performed by the upsert preserves the fields used as keys, so
lookups by key commute with it. -/
theorem findUserCoupon_map_increment (l : List UserCoupon) (userId couponId u c : String) :
    findUserCoupon
      (l.map (fun x =>
        if x.userId == userId && x.couponId == couponId then
          { x with usageCount := x.usageCount + 1 }
        else x)) u c
      = (findUserCoupon l u c).map (fun x =>
        if x.userId == userId && x.couponId == couponId then
          { x with usageCount := x.usageCount + 1 }
        else x) := by
  unfold findUserCoupon
  rw [List.find?_map]
  have hpres : ((fun uc => uc.userId == u && uc.couponId == c) ∘
      (fun x => if x.userId == userId && x.couponId == couponId then
        { x with usageCount := x.usageCount + 1 } else x))
      = (fun uc : UserCoupon => uc.userId == u && uc.couponId == c) := by
    funext x
    by_cases hx1 : x.userId = userId
    · by_cases hx2 : x.couponId = couponId
      · simp [Function.comp, hx1, hx2]
      · simp [Function.comp, hx1, hx2]
    · simp [Function.comp, hx1]
  rw [hpres]

/-- The upsert increments the stored usage count of exactly the targeted
`(userId, couponId)` pair by one (1 on first use). -/
theorem usageCountOf_upsert (s : StoreState) (userId couponId : String) :
    usageCountOf (upsertUserCoupon s userId couponId) userId couponId
      = usageCountOf s userId couponId + 1 := by
  unfold usageCountOf upsertUserCoupon
  by_cases h : (findUserCoupon s.userCoupons userId couponId).isSome
  · rw [if_pos h]
    obtain ⟨uc, huc⟩ := Option.isSome_iff_exists.mp h
    have hkey := List.find?_some (by exact huc)
    simp only [Bool.and_eq_true, beq_iff_eq] at hkey
    simp only [findUserCoupon_map_increment, huc, Option.map_some]
    simp [hkey.1, hkey.2]
  · rw [if_neg h]
    have hnone : findUserCoupon s.userCoupons userId couponId = none :=
      Option.not_isSome_iff_eq_none.mp h
    have happ : findUserCoupon
        (s.userCoupons ++ [{ userId := userId, couponId := couponId, usageCount := 1 }])
        userId couponId
        = some { userId := userId, couponId := couponId, usageCount := 1 } := by
      unfold findUserCoupon at hnone ⊢
      rw [List.find?_append, hnone]
      simp
    simp only [happ, hnone]

/-- Rows of other `(userId, couponId)` pairs are untouched by the upsert. -/
theorem usageCountOf_upsert_other (s : StoreState) (userId couponId u c : String)
    (h : ¬ (u = userId ∧ c = couponId)) :
    usageCountOf (upsertUserCoupon s userId couponId) u c
      = usageCountOf s u c := by
  unfold usageCountOf upsertUserCoupon
  by_cases hf : (findUserCoupon s.userCoupons userId couponId).isSome
  · rw [if_pos hf]
    rw [findUserCoupon_map_increment]
    cases hres : findUserCoupon s.userCoupons u c with
    | none => simp
    | some uc =>
      have hp := List.find?_some hres
      simp only [Bool.and_eq_true, beq_iff_eq] at hp
      have hne : (uc.userId == userId && uc.couponId == couponId) = false := by
        rw [Bool.and_eq_false_iff]
        by_cases h1 : uc.userId = userId
        · right
          rw [beq_eq_false_iff_ne]
          intro h2
          exact h ⟨hp.1.symm.trans h1, hp.2.symm.trans h2⟩
        · left
          rw [beq_eq_false_iff_ne]
          exact h1
      simp [Option.map, hne]
  · rw [if_neg hf]
    have hconcat : findUserCoupon
        (s.userCoupons ++ [{ userId := userId, couponId := couponId, usageCount := 1 }])
        u c
        = findUserCoupon s.userCoupons u c := by
      unfold findUserCoupon
      rw [List.find?_append]
      cases hres : s.userCoupons.find? (fun uc => uc.userId == u && uc.couponId == c) with
      | some uc => simp
      | none =>
        have hfalse : ((userId == u) && (couponId == c)) = false := by
          rw [Bool.and_eq_false_iff]
          by_cases h1 : userId = u
          · right
            rw [beq_eq_false_iff_ne]
            intro h2
            exact h ⟨h1.symm, h2.symm⟩
          · left
            rw [beq_eq_false_iff_ne]
            exact h1
        simp [List.find?, hfalse]
    rw [hconcat]

/-- C4 amended: POST /api/orders with a coupon keeps the per-user usage
count within the effective limit `usageLimitPerUser || 1` (1 when the
limit is unset or 0): with the coupon `c` resolved for code `cc` (both by
the validation lookup and by the upsert lookup) and an otherwise valid
request, (1) if a userCoupon row for the pair has already reached the
effective limit the order is rejected with 400 and nothing changes, and
(2) every successful order increments the pair's usage count by exactly
one and leaves it at most the effective limit. -/
theorem createOrder_respects_usage_limit (now : Int) (s : StoreState)
    (userId : String) (items : List OrderItemInput) (ship pay : Option String)
    (cc freshOrderId orderNumber : String) (c : Coupon)
    (subtotal : ℚ) (vitems : List OrderItem)
    (hne : items ≠ [])
    (hship : jsTruthy ship = true) (hpay : jsTruthy pay = true)
    (hcc : cc ≠ "")
    (hit : validateItems s items = .ok (subtotal, vitems))
    (hval : s.coupons.find? (fun x => x.code == cc && x.isActive &&
        decide (x.startDate ≤ now) && decide (now ≤ x.endDate)) = some c)
    (hup : s.coupons.find? (fun x => x.code == cc) = some c) :
    (∀ uc, findUserCoupon s.userCoupons userId c.id = some uc →
        uc.usageCount ≥ effectiveUsageLimit c.usageLimitPerUser →
        createOrder now s userId items ship pay (some cc) freshOrderId orderNumber
          = (s, .error ⟨"Limite de uso do cupom excedido", 400⟩)) ∧
    (∀ o, (createOrder now s userId items ship pay (some cc)
          freshOrderId orderNumber).2 = .ok o →
        usageCountOf (createOrder now s userId items ship pay (some cc)
            freshOrderId orderNumber).1 userId c.id
          = usageCountOf s userId c.id + 1 ∧
        usageCountOf (createOrder now s userId items ship pay (some cc)
            freshOrderId orderNumber).1 userId c.id
          ≤ effectiveUsageLimit c.usageLimitPerUser) := by
  have hccT : jsTruthy (some cc) = true := by
    simp [jsTruthy, hcc]
  have hemp : items.isEmpty = false := by
    cases items with
    | nil => exact absurd rfl hne
    | cons a l => rfl
  constructor
  · intro uc hfu hge
    unfold createOrder
    rw [if_neg (by simp [hemp]), if_neg (by simp [hship]), if_neg (by simp [hpay])]
    simp only [hit, hccT, if_true, Option.getD]
    unfold computeOrderDiscount
    simp only [hval, hfu, if_pos hge, Except.map]
  · intro o hok
    unfold createOrder at hok ⊢
    rw [if_neg (by simp [hemp]), if_neg (by simp [hship]), if_neg (by simp [hpay])]
      at hok ⊢
    simp only [hit, hccT, if_true, Option.getD] at hok ⊢
    unfold computeOrderDiscount at hok ⊢
    simp only [hval] at hok ⊢
    cases hfu : findUserCoupon s.userCoupons userId c.id with
    | some uc =>
      simp only [hfu] at hok ⊢
      by_cases hge : uc.usageCount ≥ effectiveUsageLimit c.usageLimitPerUser
      · rw [if_pos hge] at hok
        simp [Except.map] at hok
      · rw [if_neg hge] at hok ⊢
        cases hd : computeOrderDiscount.couponDiscountValue subtotal c with
        | error e =>
          rw [hd] at hok
          simp [Except.map] at hok
        | ok dc =>
          rw [hd] at hok
          simp only [Except.map, hccT, if_true, hup] at hok ⊢
          have hcnt : usageCountOf s userId c.id = uc.usageCount := by
            unfold usageCountOf
            rw [hfu]
          refine ⟨?_, ?_⟩
          · rw [usageCountOf_upsert]
            rfl
          · rw [usageCountOf_upsert]
            have hgoal : usageCountOf s userId c.id + 1
                ≤ effectiveUsageLimit c.usageLimitPerUser := by
              rw [hcnt]
              omega
            exact hgoal
    | none =>
      simp only [hfu] at hok ⊢
      cases hd : computeOrderDiscount.couponDiscountValue subtotal c with
      | error e =>
        rw [hd] at hok
        simp [Except.map] at hok
      | ok dc =>
        rw [hd] at hok
        simp only [Except.map, hccT, if_true, hup] at hok ⊢
        have hcnt : usageCountOf s userId c.id = 0 := by
          unfold usageCountOf
          rw [hfu]
        refine ⟨?_, ?_⟩
        · rw [usageCountOf_upsert]
          rfl
        · rw [usageCountOf_upsert]
          have hgoal : usageCountOf s userId c.id + 1
              ≤ effectiveUsageLimit c.usageLimitPerUser := by
            rw [hcnt]
            exact effectiveUsageLimit_pos c.usageLimitPerUser
          exact hgoal

/-- C9: every successful POST /api/coupons/validate returns a discount at
most the cart total; for a PERCENTAGE coupon whose maximumDiscount is set
the discount also respects that cap, and for a FIXED_AMOUNT coupon the
discount is exactly min(value, cartTotal). -/
theorem validateCoupon_discount_bounds (now : Int) (s : StoreState)
    (userId : String) (code : Option String) (cartTotal : ℚ) (c : Coupon) (d : ℚ)
    (h : validateCoupon now s userId code cartTotal = .ok (c, d)) :
    d ≤ cartTotal ∧
    (∀ m, c.type = .PERCENTAGE → c.maximumDiscount = some m → d ≤ m) ∧
    (c.type = .FIXED_AMOUNT → d = min c.value cartTotal) := by
  unfold validateCoupon at h
  split_ifs at h with htr
  cases hfind : s.coupons.find? (fun x => x.code == toUpperCase (code.getD "") &&
      x.isActive && decide (x.startDate ≤ now) && decide (now ≤ x.endDate)) with
  | none =>
    simp only [hfind] at h
    exact Except.noConfusion h
  | some coupon =>
    simp only [hfind] at h
    by_cases h1 : usageCountOf s userId coupon.id
        ≥ effectiveUsageLimit coupon.usageLimitPerUser
    · rw [if_pos h1] at h
      exact Except.noConfusion h
    · rw [if_neg h1] at h
      by_cases h2 : (match coupon.minimumAmount with
          | some m => decide (cartTotal < m)
          | none => false) = true
      · rw [if_pos h2] at h
        exact Except.noConfusion h
      · rw [if_neg h2] at h
        injection h with hpair
        obtain ⟨hc, hd⟩ := Prod.mk.injEq _ _ _ _ |>.mp hpair
        subst hc
        subst hd
        refine ⟨?_, ?_, ?_⟩
        · split_ifs with h4
          · exact le_refl _
          · exact le_of_not_lt h4
        · intro m hty hmax
          simp only [couponBaseDiscount, hty, hmax]
          split_ifs with ha hb hb <;> linarith
        · intro hty
          simp only [couponBaseDiscount, hty]
          rcases le_or_lt coupon.value cartTotal with hle | hlt
          · rw [if_neg (not_lt.mpr hle), min_eq_left hle]
          · rw [if_pos hlt, min_eq_right (le_of_lt hlt)]

/-- A concrete active FIXED_AMOUNT coupon worth 30. -/
def exFix30 : Coupon :=
  { id := "cf", code := "FIX30", name := "Fixo 30", type := .FIXED_AMOUNT,
    value := 30, minimumAmount := none, maximumDiscount := none,
    usageLimitPerUser := none, isActive := true, startDate := 0, endDate := 10 }

/-- A store whose only coupon is `exFix30`. -/
def exCouponStore : StoreState :=
  { products := [], coupons := [exFix30], userCoupons := [], orders := [] }

/-- Witness for C9: validating code "fix30" against a cart of 100 succeeds
with discount 30 = min(30, 100), which satisfies all three bounds. -/
theorem validateCoupon_discount_bounds_witness :
    validateCoupon 1 exCouponStore "u1" (some "fix30") 100
      = .ok (exFix30, 30) ∧
    ((30 : ℚ) ≤ 100 ∧
      (∀ m, exFix30.type = .PERCENTAGE → exFix30.maximumDiscount = some m →
        (30 : ℚ) ≤ m) ∧
      (exFix30.type = .FIXED_AMOUNT → (30 : ℚ) = min exFix30.value 100)) := by
  have h : validateCoupon 1 exCouponStore "u1" (some "fix30") 100
      = .ok (exFix30, 30) := by
    have hup : toUpperCase "fix30" = "FIX30" := by decide
    norm_num [validateCoupon, couponBaseDiscount, usageCountOf, findUserCoupon,
      effectiveUsageLimit, jsTruthy, hup, Option.getD, exCouponStore, exFix30,
      List.find?]
    try simp
    try norm_num
  exact ⟨h, validateCoupon_discount_bounds 1 exCouponStore "u1" (some "fix30")
    100 exFix30 30 h⟩

/-- A concrete active coupon whose per-user usage limit is SET to 0. -/
def exZeroLimitCoupon : Coupon :=
  { id := "c0", code := "ZERO", name := "Zero", type := .FIXED_AMOUNT, value := 5,
    minimumAmount := none, maximumDiscount := none, usageLimitPerUser := some 0,
    isActive := true, startDate := 0, endDate := 10 }

/-- A store with one product and the zero-limit coupon, no usage yet. -/
def exZeroLimitStore : StoreState :=
  { products := [{ id := "p1", name := "P", price := 10, isActive := true,
                   trackStock := false, stock := 0 }]
    coupons := [exZeroLimitCoupon]
    userCoupons := []
    orders := [] }

/-- The order created in the zero-limit counterexample run. -/
def exZeroLimitOrder : Order :=
  { id := "o1", userId := "u1", orderNumber := "BC1", subtotal := 10,
    shippingCost := 0, discount := 5, total := 5, status := "PENDING",
    paymentStatus := "PENDING", paymentMethod := "pix", shippingAddress := "addr",
    couponCode := some "ZERO",
    items := [{ productId := "p1", quantity := 1, price := 10 }], createdAt := 0 }

/-- C4 counterexample: with `usageLimitPerUser` SET to 0 the order is
accepted and the (user, coupon) usage count becomes 1 > 0, because the
code coerces the falsy 0 to 1 via `usageLimitPerUser || 1`.  The claim's
invariant `usageCount ≤ usageLimitPerUser` (1 only when unset) is
violated. -/
theorem zero_limit_coupon_used_once :
    (createOrder 0 exZeroLimitStore "u1" [{ productId := "p1", quantity := 1 }]
      (some "addr") (some "pix") (some "ZERO") "o1" "BC1").1.userCoupons
      = [{ userId := "u1", couponId := "c0", usageCount := 1 }] ∧
    ((createOrder 0 exZeroLimitStore "u1" [{ productId := "p1", quantity := 1 }]
      (some "addr") (some "pix") (some "ZERO") "o1" "BC1").2
      = Except.ok exZeroLimitOrder) ∧
    exZeroLimitCoupon.usageLimitPerUser = some 0 := by
  refine ⟨?_, ?_, rfl⟩ <;>
  · norm_num [createOrder, validateItems, computeOrderDiscount,
      computeOrderDiscount.couponDiscountValue, upsertUserCoupon, findUserCoupon,
      jsTruthy, effectiveUsageLimit, exZeroLimitStore, exZeroLimitCoupon,
      exZeroLimitOrder, List.find?, Except.map]
    try simp
    try norm_num

/-- A store with one product and a coupon with per-user limit 2 already
used twice by user u1. -/
def exLimitReachedStore : StoreState :=
  { products := [{ id := "p1", name := "P", price := 10, isActive := true,
                   trackStock := false, stock := 0 }]
    coupons := [{ id := "c2", code := "TWICE", name := "Twice", type := .FIXED_AMOUNT,
                  value := 5, minimumAmount := none, maximumDiscount := none,
                  usageLimitPerUser := some 2, isActive := true,
                  startDate := 0, endDate := 10 }]
    userCoupons := [{ userId := "u1", couponId := "c2", usageCount := 2 }]
    orders := [] }

/-- Witness for C4 amended: a user who has exhausted a limit-2 coupon is
rejected with 400 and the state is unchanged. -/
theorem createOrder_respects_usage_limit_witness :
    createOrder 0 exLimitReachedStore "u1" [{ productId := "p1", quantity := 1 }]
      (some "addr") (some "pix") (some "TWICE") "o1" "BC1"
      = (exLimitReachedStore, .error ⟨"Limite de uso do cupom excedido", 400⟩) := by
  have hbase := createOrder_respects_usage_limit 0 exLimitReachedStore "u1"
    [{ productId := "p1", quantity := 1 }] (some "addr") (some "pix") "TWICE"
    "o1" "BC1"
    { id := "c2", code := "TWICE", name := "Twice", type := .FIXED_AMOUNT,
      value := 5, minimumAmount := none, maximumDiscount := none,
      usageLimitPerUser := some 2, isActive := true, startDate := 0, endDate := 10 }
    10 [{ productId := "p1", quantity := 1, price := 10 }]
    (by decide) (by decide) (by decide) (by decide)
    (by norm_num [validateItems, exLimitReachedStore, List.find?])
    (by norm_num [exLimitReachedStore, List.find?])
    (by norm_num [exLimitReachedStore, List.find?])
  exact hbase.1 { userId := "u1", couponId := "c2", usageCount := 2 }
    (by norm_num [findUserCoupon, exLimitReachedStore, List.find?])
    (by norm_num [effectiveUsageLimit])

/-! ### LGPD erasure workflow (`LGPDService` in the backend utils) -/

/-- A calendar date, the shape consumed by `calculateAge` in
`src/backend/src/utils/helpers.ts`. -/
structure SimpleDate where
  year : Int
  month : Int
  day : Int
deriving Repr, DecidableEq

/-- A `User` row (the fields touched by registration and anonymization). -/
structure User where
  id : String
  email : String
  cpf : String
  firstName : String
  lastName : String
  phone : Option String
  birthDate : Option SimpleDate
  password : String
  referralCode : String
  referredById : Option String
  isActive : Bool := true
  emailVerified : Bool := false
  createdAt : Int := 0
deriving Repr, DecidableEq

/-- An `Address` row (only its owner matters to the erasure workflow). -/
structure Address where
  userId : String
deriving Repr, DecidableEq

/-- A `UserConsent` row. -/
structure UserConsent where
  id : String
  userId : String
deriving Repr, DecidableEq

/-- A `Subscription` row. -/
structure Subscription where
  id : String
  userId : String
  status : String
deriving Repr, DecidableEq

/-- A `BillingHistory` row; it belongs to a subscription. -/
structure BillingHistory where
  id : String
  subscriptionId : String
  amount : ℚ
  status : String
  createdAt : Int
deriving Repr, DecidableEq

/-- A `DataSubjectRequest` row of the LGPD workflow. -/
structure DataSubjectRequest where
  id : String
  userId : String
  type : String
  status : String
  requestedAt : Int
  processedAt : Option Int := none
  adminId : Option String := none
  adminNotes : Option String := none
deriving Repr, DecidableEq

/-- The slice of the database touched by `LGPDService`. -/
structure LgpdState where
  users : List User
  addresses : List Address
  bankDatas : List BankData
  userConsents : List UserConsent
  subscriptions : List Subscription
  withdrawals : List WithdrawalRequest
  orders : List Order
  billingHistories : List BillingHistory
  dataSubjectRequests : List DataSubjectRequest
  commissions : List Commission
deriving Repr, DecidableEq

/-- `5 * 365 * 24 * 60 * 60 * 1000` milliseconds, the tax-retention window. -/
def fiveYearsMs : Int := 5 * 365 * 24 * 60 * 60 * 1000

/-- `LGPDService.canEraseUserData`: the three exclusions actually used are
an ACTIVE subscription, a non-terminal withdrawal request, and billing
history within the last five years.  (`recentOrders` is also queried by
the source but never used in the decision.) -/
def canEraseUserData (now : Int) (s : LgpdState) (userId : String) :
    Bool × Option String :=
  -- `recentOrders` (orders of the last five years) is also queried by the
  -- source, but no decision branch ever reads it.
  if (s.subscriptions.find?
      (fun x => x.userId == userId && x.status == "ACTIVE")).isSome then
    (false, some "Usuário possui assinatura ativa. Cancele a assinatura antes de solicitar exclusão.")
  else if 0 < (s.withdrawals.filter
      (fun w => w.userId == userId && w.status.isNonTerminal)).length then
    (false, some "Usuário possui solicitações de saque pendentes.")
  else if 0 < (s.billingHistories.filter (fun b =>
      (s.subscriptions.find? (fun sub => sub.id == b.subscriptionId &&
        sub.userId == userId)).isSome &&
      decide (now - fiveYearsMs ≤ b.createdAt))).length then
    (false, some "Dados devem ser mantidos por 5 anos para fins fiscais conforme legislação brasileira.")
  else
    (true, none)

/-- `LGPDService.anonymizeUserData`: inside one `prisma.$transaction`, the
user row is overwritten with the fixed sentinel record and the dependent
address / bank-data / consent rows are deleted.  `prisma.user.update`
throws P2025 when the row does not exist, aborting the whole transaction:
that case is `none`. -/
def anonymizeUserData (s : LgpdState) (userId : String) : Option LgpdState :=
  if s.users.any (fun u => u.id == userId) then
    some { s with
      users := s.users.map (fun u =>
        if u.id == userId then
          { u with
            firstName := "ANONIMIZADO"
            lastName := "ANONIMIZADO"
            email := "anonimizado_" ++ userId ++ "@example.com"
            cpf := "00000000000"
            phone := none
            birthDate := none
            isActive := false
            emailVerified := false }
        else u)
      addresses := s.addresses.filter (fun a => ¬ a.userId == userId)
      bankDatas := s.bankDatas.filter (fun b => ¬ b.userId == userId)
      userConsents := s.userConsents.filter (fun c => ¬ c.userId == userId) }
  else
    none

/-- `LGPDService.updateRequestStatus`: `processedAt` is set only when the
new status is COMPLETED (otherwise `undefined` leaves it untouched), and
`adminId`/`adminNotes` are written only when provided. -/
def updateRequestStatus (s : LgpdState) (requestId status : String)
    (now : Int) (adminId notes : Option String) : LgpdState :=
  { s with
    dataSubjectRequests := s.dataSubjectRequests.map (fun r =>
      if r.id == requestId then
        { r with
          status := status
          processedAt := if status == "COMPLETED" then some now else r.processedAt
          adminId := match adminId with
            | some a => some a
            | none => r.adminId
          adminNotes := match notes with
            | some n => some n
            | none => r.adminNotes }
      else r) }

/-- `LGPDService.processErasureRequest`: records a PENDING ERASURE
request; if `canEraseUserData` forbids erasure, marks it REJECTED and
throws (the DSR write persists; nothing else changes); otherwise
anonymizes the user and marks the request COMPLETED.  The pre-deletion
backup and the audit-log write are external side effects outside this
state.  `freshRequestId` stands for the id generated for the new row. -/
def processErasureRequest (now : Int) (s : LgpdState) (userId adminId : String)
    (reason : Option String) (freshRequestId : String) :
    LgpdState × Except String Unit :=
  let request : DataSubjectRequest :=
    { id := freshRequestId, userId := userId, type := "ERASURE",
      status := "PENDING", requestedAt := now }
  let s1 : LgpdState :=
    { s with dataSubjectRequests := s.dataSubjectRequests ++ [request] }
  let canErase := canEraseUserData now s1 userId
  if canErase.1 = false then
    (updateRequestStatus s1 freshRequestId "REJECTED" now (some adminId) canErase.2,
      .error (canErase.2.getD ""))
  else
    match anonymizeUserData s1 userId with
    | none => (s1, .error "P2025")
    | some s2 =>
      (updateRequestStatus s2 freshRequestId "COMPLETED" now (some adminId) reason,
        .ok ())

/-- The three exclusions exactly as the claim states them, written
independently of `canEraseUserData` so that the theorem below relates the
code to the claim. -/
def hasErasureExclusion (now : Int) (s : LgpdState) (userId : String) : Prop :=
  (∃ sub ∈ s.subscriptions, sub.userId = userId ∧ sub.status = "ACTIVE") ∨
  (∃ w ∈ s.withdrawals, w.userId = userId ∧ w.status.isNonTerminal = true) ∨
  (∃ b ∈ s.billingHistories,
    (∃ sub ∈ s.subscriptions, sub.id = b.subscriptionId ∧ sub.userId = userId) ∧
    now - fiveYearsMs ≤ b.createdAt)

/-- The decision of `canEraseUserData` is exactly the negation of the
three claimed exclusions. -/
theorem canEraseUserData_iff (now : Int) (s : LgpdState) (userId : String) :
    (canEraseUserData now s userId).1 = false ↔
      hasErasureExclusion now s userId := by
  unfold canEraseUserData hasErasureExclusion
  constructor
  · intro h
    split_ifs at h with h1 h2 h3
    · left
      rw [List.find?_isSome] at h1
      obtain ⟨x, hx, hp⟩ := h1
      simp only [Bool.and_eq_true, beq_iff_eq] at hp
      exact ⟨x, hx, hp.1, hp.2⟩
    · right
      left
      rw [List.length_pos] at h2
      obtain ⟨w, hw⟩ := List.exists_mem_of_ne_nil _ h2
      have := List.mem_filter.mp hw
      obtain ⟨hmem, hp⟩ := this
      simp only [Bool.and_eq_true, beq_iff_eq] at hp
      exact ⟨w, hmem, hp.1, hp.2⟩
    · right
      right
      rw [List.length_pos] at h3
      obtain ⟨b, hb⟩ := List.exists_mem_of_ne_nil _ h3
      obtain ⟨hmem, hp⟩ := List.mem_filter.mp hb
      simp only [Bool.and_eq_true, decide_eq_true_eq] at hp
      obtain ⟨hsub, hdate⟩ := hp
      rw [List.find?_isSome] at hsub
      obtain ⟨sub, hsmem, hsp⟩ := hsub
      simp only [Bool.and_eq_true, beq_iff_eq] at hsp
      exact ⟨b, hmem, ⟨sub, hsmem, hsp.1, hsp.2⟩, hdate⟩
  · intro h
    rcases h with ⟨sub, hmem, hu, hs⟩ | ⟨w, hmem, hu, hs⟩ | ⟨b, hmem, hsub, hdate⟩
    · have h1 : (s.subscriptions.find?
          (fun x => x.userId == userId && x.status == "ACTIVE")).isSome := by
        rw [List.find?_isSome]
        exact ⟨sub, hmem, by simp [hu, hs]⟩
      simp only [h1, if_true]
    · have h2 : 0 < (s.withdrawals.filter
          (fun w => w.userId == userId && w.status.isNonTerminal)).length := by
        rw [List.length_pos]
        intro hnil
        have := List.filter_eq_nil_iff.mp hnil w hmem
        simp [hu, hs] at this
      split_ifs <;> simp_all
    · have h3 : 0 < (s.billingHistories.filter (fun b =>
          (s.subscriptions.find? (fun sub => sub.id == b.subscriptionId &&
            sub.userId == userId)).isSome &&
          decide (now - fiveYearsMs ≤ b.createdAt))).length := by
        rw [List.length_pos]
        intro hnil
        have hfail := List.filter_eq_nil_iff.mp hnil b hmem
        obtain ⟨sub, hsmem, hsid, hsu⟩ := hsub
        have hsome : (s.subscriptions.find? (fun sub => sub.id == b.subscriptionId &&
            sub.userId == userId)).isSome := by
          rw [List.find?_isSome]
          exact ⟨sub, hsmem, by simp [hsid, hsu]⟩
        simp [hsome, hdate] at hfail
      split_ifs <;> simp_all

/-- Updating the status of a request that is in the table yields a row
with that id and the new status. -/
theorem updateRequestStatus_mem (s : LgpdState) (rid st : String) (now : Int)
    (adminId notes : Option String) (r : DataSubjectRequest)
    (hr : r ∈ s.dataSubjectRequests) (hid : r.id = rid) :
    ∃ r' ∈ (updateRequestStatus s rid st now adminId notes).dataSubjectRequests,
      r'.id = rid ∧ r'.status = st := by
  unfold updateRequestStatus
  refine ⟨_, List.mem_map_of_mem _ hr, ?_⟩
  simp [hid]

/-- C5: the erasure operation throws (after recording the data-subject
request and marking it REJECTED, anonymizing nothing) exactly when one of
the three exclusions holds — an ACTIVE subscription, a non-terminal
withdrawal request, or billing history within the last five years; when
none holds it anonymizes and marks the request COMPLETED. -/
theorem processErasureRequest_spec (now : Int) (s : LgpdState)
    (userId adminId : String) (reason : Option String) (freshRequestId : String)
    (huser : ∃ u ∈ s.users, u.id = userId) :
    (hasErasureExclusion now s userId ↔
      ∃ e, (processErasureRequest now s userId adminId reason freshRequestId).2
        = .error e) ∧
    (hasErasureExclusion now s userId →
      (processErasureRequest now s userId adminId reason freshRequestId).1.users
          = s.users ∧
      (processErasureRequest now s userId adminId reason freshRequestId).1.addresses
          = s.addresses ∧
      (processErasureRequest now s userId adminId reason freshRequestId).1.bankDatas
          = s.bankDatas ∧
      (processErasureRequest now s userId adminId reason
          freshRequestId).1.userConsents = s.userConsents ∧
      ∃ r ∈ (processErasureRequest now s userId adminId reason
          freshRequestId).1.dataSubjectRequests,
        r.id = freshRequestId ∧ r.status = "REJECTED") ∧
    (¬ hasErasureExclusion now s userId →
      (processErasureRequest now s userId adminId reason freshRequestId).2
          = .ok () ∧
      ∃ r ∈ (processErasureRequest now s userId adminId reason
          freshRequestId).1.dataSubjectRequests,
        r.id = freshRequestId ∧ r.status = "COMPLETED") := by
  have hds : ∀ (l : List DataSubjectRequest),
      canEraseUserData now { s with dataSubjectRequests := l } userId
        = canEraseUserData now s userId := fun l => rfl
  by_cases hex : hasErasureExclusion now s userId
  · have hfalse : (canEraseUserData now s userId).1 = false :=
      (canEraseUserData_iff now s userId).mpr hex
    have hrun : processErasureRequest now s userId adminId reason freshRequestId
        = (updateRequestStatus
            { s with dataSubjectRequests := s.dataSubjectRequests ++
                [{ id := freshRequestId, userId := userId, type := "ERASURE",
                   status := "PENDING", requestedAt := now }] }
            freshRequestId "REJECTED" now (some adminId)
            (canEraseUserData now s userId).2,
          .error ((canEraseUserData now s userId).2.getD "")) := by
      unfold processErasureRequest
      simp only [hds]
      rw [if_pos hfalse]
    refine ⟨⟨fun _ => ?_, fun _ => hex⟩, fun _ => ?_, fun hn => absurd hex hn⟩
    · rw [hrun]
      exact ⟨_, rfl⟩
    · rw [hrun]
      refine ⟨rfl, rfl, rfl, rfl, ?_⟩
      exact updateRequestStatus_mem _ _ _ _ _ _ _
        (List.mem_append_right _ (List.mem_singleton.mpr rfl)) rfl
  · have htrue : (canEraseUserData now s userId).1 = true := by
      cases hb : (canEraseUserData now s userId).1
      · exact absurd ((canEraseUserData_iff now s userId).mp hb) hex
      · rfl
    have hany : (s.users.any (fun u => u.id == userId)) = true := by
      obtain ⟨u, hu, hid⟩ := huser
      rw [List.any_eq_true]
      exact ⟨u, hu, by simp [hid]⟩
    obtain ⟨s2, hs2, hdsr2⟩ : ∃ s2,
        anonymizeUserData
          { s with dataSubjectRequests := s.dataSubjectRequests ++
              [{ id := freshRequestId, userId := userId, type := "ERASURE",
                 status := "PENDING", requestedAt := now }] } userId = some s2 ∧
        s2.dataSubjectRequests = s.dataSubjectRequests ++
          [{ id := freshRequestId, userId := userId, type := "ERASURE",
             status := "PENDING", requestedAt := now }] := by
      have hany' : (({ s with dataSubjectRequests := s.dataSubjectRequests ++
          [{ id := freshRequestId, userId := userId, type := "ERASURE",
             status := "PENDING", requestedAt := now }] } : LgpdState).users.any
            (fun u => u.id == userId)) = true := hany
      unfold anonymizeUserData
      rw [if_pos hany']
      exact ⟨_, rfl, rfl⟩
    have hrun : processErasureRequest now s userId adminId reason freshRequestId
        = (updateRequestStatus s2 freshRequestId "COMPLETED" now (some adminId)
            reason, .ok ()) := by
      unfold processErasureRequest
      simp only [hds]
      rw [if_neg (by simp [htrue])]
      rw [hs2]
    refine ⟨⟨fun hx => absurd hx hex, fun ⟨e, he⟩ => ?_⟩, fun hx => absurd hx hex,
      fun _ => ?_⟩
    · rw [hrun] at he
      exact Except.noConfusion he
    · rw [hrun]
      refine ⟨rfl, ?_⟩
      refine updateRequestStatus_mem _ _ _ _ _ _
        { id := freshRequestId, userId := userId, type := "ERASURE",
          status := "PENDING", requestedAt := now } ?_ rfl
      rw [hdsr2]
      exact List.mem_append_right _ (List.mem_singleton.mpr rfl)

/-- C6: anonymization overwrites the PII fields of the user row in place
with the fixed sentinel values, deletes the user's address, bank-data and
consent rows, and keeps the user row itself as well as all orders and
commissions, inside the single transaction embedded by
`anonymizeUserData`. -/
theorem anonymizeUserData_spec (s : LgpdState) (userId : String)
    (huser : ∃ u ∈ s.users, u.id = userId) :
    ∃ s', anonymizeUserData s userId = some s' ∧
      (∀ u ∈ s'.users, u.id = userId →
        u.firstName = "ANONIMIZADO" ∧ u.lastName = "ANONIMIZADO" ∧
        u.email = "anonimizado_" ++ userId ++ "@example.com" ∧
        u.cpf = "00000000000" ∧ u.phone = none ∧ u.birthDate = none ∧
        u.isActive = false ∧ u.emailVerified = false) ∧
      (∃ u ∈ s'.users, u.id = userId) ∧
      s'.users.length = s.users.length ∧
      (∀ a ∈ s'.addresses, a.userId ≠ userId) ∧
      (∀ b ∈ s'.bankDatas, b.userId ≠ userId) ∧
      (∀ c ∈ s'.userConsents, c.userId ≠ userId) ∧
      s'.orders = s.orders ∧ s'.commissions = s.commissions := by
  have hany : (s.users.any (fun u => u.id == userId)) = true := by
    obtain ⟨u, hu, hid⟩ := huser
    rw [List.any_eq_true]
    exact ⟨u, hu, by simp [hid]⟩
  unfold anonymizeUserData
  rw [if_pos hany]
  refine ⟨_, rfl, ?_, ?_, by simp, ?_, ?_, ?_, rfl, rfl⟩
  · intro u hu hid
    obtain ⟨x, hx, hfx⟩ := List.mem_map.mp hu
    by_cases hxid : x.id = userId
    · rw [← hfx]
      simp [hxid]
    · rw [← hfx] at hid ⊢
      simp [hxid] at hid
  · obtain ⟨u, hu, hid⟩ := huser
    refine ⟨_, List.mem_map_of_mem _ hu, ?_⟩
    simp [hid]
  · intro a ha
    have := (List.mem_filter.mp ha).2
    simpa using this
  · intro b hb
    have := (List.mem_filter.mp hb).2
    simpa using this
  · intro c hc
    have := (List.mem_filter.mp hc).2
    simpa using this

/-- A concrete user used by the LGPD witnesses. -/
def exLgpdUser : User :=
  { id := "u1", email := "u@example.com", cpf := "52998224725", firstName := "Ana",
    lastName := "Silva", phone := none, birthDate := none, password := "h",
    referralCode := "R1", referredById := none }

/-- A state where u1 has an ACTIVE subscription (an erasure exclusion). -/
def exLgpdActive : LgpdState :=
  { users := [exLgpdUser], addresses := [], bankDatas := [], userConsents := [],
    subscriptions := [{ id := "s1", userId := "u1", status := "ACTIVE" }],
    withdrawals := [], orders := [], billingHistories := [],
    dataSubjectRequests := [], commissions := [] }

/-- Witness for C5: with an ACTIVE subscription the erasure operation
throws. -/
theorem processErasureRequest_spec_witness :
    ∃ e, (processErasureRequest 0 exLgpdActive "u1" "admin" none "r1").2
      = Except.error e :=
  (processErasureRequest_spec 0 exLgpdActive "u1" "admin" none "r1"
    ⟨exLgpdUser, by simp [exLgpdActive], rfl⟩).1.mp
    (Or.inl ⟨{ id := "s1", userId := "u1", status := "ACTIVE" },
      by simp [exLgpdActive], rfl, rfl⟩)

/-- A state with only the user row, free of exclusions, plus an address,
bank data and a consent to be deleted. -/
def exLgpdClean : LgpdState :=
  { users := [exLgpdUser]
    addresses := [{ userId := "u1" }]
    bankDatas := [{ userId := "u1", bankCode := "001", bankName := "B",
                    agency := "1", account := "2", accountType := "c",
                    holderName := "Ana", holderCpf := "52998224725",
                    pixKey := none, pixKeyType := none }]
    userConsents := [{ id := "uc1", userId := "u1" }]
    subscriptions := [], withdrawals := [], orders := [], billingHistories := [],
    dataSubjectRequests := [], commissions := [] }

/-- Witness for C6: anonymizing u1 in the concrete state succeeds and
satisfies every clause of the anonymization contract. -/
theorem anonymizeUserData_spec_witness :
    ∃ s', anonymizeUserData exLgpdClean "u1" = some s' ∧
      (∀ u ∈ s'.users, u.id = "u1" →
        u.firstName = "ANONIMIZADO" ∧ u.lastName = "ANONIMIZADO" ∧
        u.email = "anonimizado_" ++ "u1" ++ "@example.com" ∧
        u.cpf = "00000000000" ∧ u.phone = none ∧ u.birthDate = none ∧
        u.isActive = false ∧ u.emailVerified = false) ∧
      (∃ u ∈ s'.users, u.id = "u1") ∧
      s'.users.length = exLgpdClean.users.length ∧
      (∀ a ∈ s'.addresses, a.userId ≠ "u1") ∧
      (∀ b ∈ s'.bankDatas, b.userId ≠ "u1") ∧
      (∀ c ∈ s'.userConsents, c.userId ≠ "u1") ∧
      s'.orders = exLgpdClean.orders ∧ s'.commissions = exLgpdClean.commissions :=
  anonymizeUserData_spec exLgpdClean "u1" ⟨exLgpdUser, by simp [exLgpdClean], rfl⟩

/-! ### Registration (`POST /api/auth/register`) -/

/-- `calculateAge` from `src/backend/src/utils/helpers.ts`. -/
def calculateAge (today birth : SimpleDate) : Int :=
  let age := today.year - birth.year
  let monthDiff := today.month - birth.month
  if monthDiff < 0 ∨ (monthDiff = 0 ∧ today.day < birth.day) then age - 1 else age

/-- `isMinimumAge` (default minimum 18). -/
def isMinimumAge (today birth : SimpleDate) (minimumAge : Int := 18) : Bool :=
  minimumAge ≤ calculateAge today birth

/-- `cleanCPF`: strip every non-digit (`replace(/\D/g, '')`). -/
def cleanCPF (cpf : String) : String :=
  String.mk (cpf.data.filter Char.isDigit)

/-- The body of POST /api/auth/register after Joi validation
(`registerSchema`; `referralCode` is optional and explicitly allows `''`). -/
structure RegisterInput where
  email : String
  cpf : String
  firstName : String
  lastName : String
  phone : Option String
  birthDate : SimpleDate
  password : String
  referralCode : Option String
deriving Repr, DecidableEq

/-- The user table as seen by the auth routes. -/
structure AuthState where
  users : List User
deriving Repr, DecidableEq

/-- The tail of the register handler, from referral-code generation on.
`freshReferralCode` stands for the outcome of the `generateReferralCode`
retry loop (random, re-drawn until unused) and `hashedPassword` for the
bcrypt hash; `freshId` is the id of the created row. -/
def registerCreate (s : AuthState) (input : RegisterInput)
    (hashedPassword freshId freshReferralCode : String) :
    AuthState × Except ApiError User :=
  -- `if (validatedData.referralCode)` — undefined and '' are both falsy
  if jsTruthy input.referralCode then
    match s.users.find?
        (fun u => u.referralCode == toUpperCase (input.referralCode.getD "")) with
    | none => (s, .error ⟨"Código de indicação inválido", 400⟩)
    | some referrer =>
      let user : User :=
        { id := freshId, email := input.email, cpf := cleanCPF input.cpf,
          firstName := input.firstName, lastName := input.lastName,
          phone := input.phone, birthDate := some input.birthDate,
          password := hashedPassword, referralCode := freshReferralCode,
          referredById := some referrer.id }
      ({ users := s.users ++ [user] }, .ok user)
  else
    let user : User :=
      { id := freshId, email := input.email, cpf := cleanCPF input.cpf,
        firstName := input.firstName, lastName := input.lastName,
        phone := input.phone, birthDate := some input.birthDate,
        password := hashedPassword, referralCode := freshReferralCode,
        referredById := none }
    ({ users := s.users ++ [user] }, .ok user)

/-- POST /api/auth/register: minimum-age check, duplicate email/CPF check
(`findFirst` with an OR filter, then two specific 409s), then referral
resolution and user creation (`registerCreate`). -/
def register (today : SimpleDate) (s : AuthState) (input : RegisterInput)
    (hashedPassword freshId freshReferralCode : String) :
    AuthState × Except ApiError User :=
  if ¬ isMinimumAge today input.birthDate 18 then
    (s, .error ⟨"Você deve ter pelo menos 18 anos para se cadastrar", 400⟩)
  else
    match s.users.find?
        (fun u => u.email == input.email || u.cpf == cleanCPF input.cpf) with
    | some existingUser =>
      if existingUser.email == input.email then
        (s, .error ⟨"Este email já está cadastrado", 409⟩)
      else if existingUser.cpf == cleanCPF input.cpf then
        (s, .error ⟨"Este CPF já está cadastrado", 409⟩)
      else
        -- unreachable: the find? predicate guarantees one of the two
        registerCreate s input hashedPassword freshId freshReferralCode
    | none =>
      registerCreate s input hashedPassword freshId freshReferralCode

/-- C7: with an of-age, non-duplicate registration, (1) a supplied
non-empty referral code that matches no user's referralCode after
uppercasing fails with 400 and creates no user; (2) a code resolving to a
referrer makes the created user's referredById that referrer's id; (3) an
absent (or empty, which JavaScript treats as absent) code yields
referredById null. -/
theorem register_referral_resolution (today : SimpleDate) (s : AuthState)
    (input : RegisterInput) (hashedPassword freshId freshReferralCode : String)
    (hage : isMinimumAge today input.birthDate 18 = true)
    (hdup : ∀ u ∈ s.users, u.email ≠ input.email ∧ u.cpf ≠ cleanCPF input.cpf) :
    ((∀ rc, input.referralCode = some rc → rc ≠ "" →
      (∀ u ∈ s.users, u.referralCode ≠ toUpperCase rc) →
      register today s input hashedPassword freshId freshReferralCode
        = (s, .error ⟨"Código de indicação inválido", 400⟩))) ∧
    (∀ rc referrer, input.referralCode = some rc → rc ≠ "" →
      s.users.find? (fun u => u.referralCode == toUpperCase rc) = some referrer →
      ∃ newUser,
        register today s input hashedPassword freshId freshReferralCode
          = ({ users := s.users ++ [newUser] }, .ok newUser) ∧
        newUser.referredById = some referrer.id) ∧
    ((input.referralCode = none ∨ input.referralCode = some "") →
      ∃ newUser,
        register today s input hashedPassword freshId freshReferralCode
          = ({ users := s.users ++ [newUser] }, .ok newUser) ∧
        newUser.referredById = none) := by
  have hnodup : s.users.find?
      (fun u => u.email == input.email || u.cpf == cleanCPF input.cpf) = none := by
    rw [List.find?_eq_none]
    intro u hu
    obtain ⟨h1, h2⟩ := hdup u hu
    simp [h1, h2]
  have hreg : register today s input hashedPassword freshId freshReferralCode
      = registerCreate s input hashedPassword freshId freshReferralCode := by
    unfold register
    rw [if_neg (by simp [hage]), hnodup]
  refine ⟨?_, ?_, ?_⟩
  · intro rc hrc hne hnomatch
    have htr : jsTruthy input.referralCode = true := by
      simp [jsTruthy, hrc, hne]
    have hfind : s.users.find?
        (fun u => u.referralCode == toUpperCase (input.referralCode.getD ""))
        = none := by
      rw [List.find?_eq_none]
      intro u hu
      rw [hrc]
      simp [hnomatch u hu]
    rw [hreg]
    unfold registerCreate
    rw [if_pos htr, hfind]
  · intro rc referrer hrc hne hfind
    have htr : jsTruthy input.referralCode = true := by
      simp [jsTruthy, hrc, hne]
    have hfind' : s.users.find?
        (fun u => u.referralCode == toUpperCase (input.referralCode.getD ""))
        = some referrer := by
      rw [hrc]
      exact hfind
    rw [hreg]
    unfold registerCreate
    rw [if_pos htr, hfind']
    exact ⟨_, rfl, rfl⟩
  · intro hrc
    have htr : jsTruthy input.referralCode = false := by
      rcases hrc with h | h <;> simp [jsTruthy, h]
    rw [hreg]
    unfold registerCreate
    rw [if_neg (by simp [htr])]
    exact ⟨_, rfl, rfl⟩

/-- A concrete referrer on file with code REF42. -/
def exReferrer : User :=
  { id := "r9", email := "ref@example.com", cpf := "52998224725",
    firstName := "Rui", lastName := "Souza", phone := none, birthDate := none,
    password := "h", referralCode := "REF42", referredById := none }

/-- A concrete valid registration body supplying code "ref42". -/
def exRegisterInput : RegisterInput :=
  { email := "novo@example.com", cpf := "111.444.777-35", firstName := "Novo",
    lastName := "Usuario", phone := none, birthDate := ⟨2000, 1, 1⟩,
    password := "Aa1!aaaa", referralCode := some "ref42" }

/-- Witness for C7: a referrer with code REF42 exists; registering with
code "ref42" succeeds and links the new user to the referrer. -/
theorem register_referral_resolution_witness :
    ∃ newUser,
      register ⟨2026, 1, 1⟩ (AuthState.mk [exReferrer]) exRegisterInput
          "hash" "u2" "NEW001"
        = ({ users := [exReferrer] ++ [newUser] }, .ok newUser) ∧
      newUser.referredById = some "r9" :=
  (register_referral_resolution ⟨2026, 1, 1⟩ (AuthState.mk [exReferrer])
    exRegisterInput "hash" "u2" "NEW001" (by decide) (by decide)).2.1
    "ref42" exReferrer rfl (by decide) (by decide)

/-! ### Central error handler (`src/backend/src/middleware/errorHandler.ts`) -/

/-- The classes of errors the handler distinguishes, mirroring its chain
of checks: a custom AppError carrying a `statusCode` field (0 stands for
the falsy value that makes `error.statusCode` fail the truthiness test),
the three Prisma error classes (`instanceof` checks), a SyntaxError with
a `body` property, a MulterError with its code, and any other Error,
identified only by its `name`. -/
inductive ServerError
  | app (message : String) (statusCode : Nat)
  | prismaKnown (code : String) (message : String)
  | prismaValidation (message : String)
  | prismaInit (message : String)
  | jsonSyntaxWithBody (message : String)
  | multer (code : String) (message : String)
  | generic (name : String) (message : String)
deriving Repr, DecidableEq

/-- The JSON body `{success: false, error: {message, statusCode}}`. -/
structure ErrorBody where
  success : Bool
  message : String
  statusCode : Nat
deriving Repr, DecidableEq

/-- The `statusCode`/`message` pair computed by the if/else-if chain of
`errorHandler`, starting from the 500 default. -/
def errorStatusAndMessage : ServerError → Nat × String
  | .app msg sc =>
    -- `if ('statusCode' in error && error.statusCode)`
    if sc ≠ 0 then (sc, msg) else (500, "Erro interno do servidor")
  | .prismaKnown code _ =>
    if code = "P2002" then (409, "Dados duplicados. Este registro já existe.")
    else if code = "P2025" then (404, "Registro não encontrado.")
    else if code = "P2003" then (400, "Violação de chave estrangeira.")
    else if code = "P2014" then (400, "Dados inválidos fornecidos.")
    else (400, "Erro de banco de dados.")
  | .prismaValidation _ => (400, "Dados de entrada inválidos.")
  | .prismaInit _ => (503, "Erro de conexão com o banco de dados.")
  | .jsonSyntaxWithBody _ => (400, "JSON inválido fornecido.")
  | .multer code _ =>
    if code = "LIMIT_FILE_SIZE" then (400, "Arquivo muito grande.")
    else if code = "LIMIT_FILE_COUNT" then (400, "Muitos arquivos enviados.")
    else if code = "LIMIT_UNEXPECTED_FILE" then (400, "Campo de arquivo inesperado.")
    else (400, "Erro no upload do arquivo.")
  | .generic name _ =>
    if name = "ValidationError" then (400, "Dados de entrada inválidos.")
    else if name = "JsonWebTokenError" then (401, "Token inválido.")
    else if name = "TokenExpiredError" then (401, "Token expirado.")
    else (500, "Erro interno do servidor")

/-- `errorHandler`: replies with HTTP status `statusCode` and the body
`{success: false, error: {message, statusCode}}` (the development-only
`stack`/`details` fields are omitted). -/
def errorHandler (error : ServerError) : Nat × ErrorBody :=
  ((errorStatusAndMessage error).1,
    { success := false
      message := (errorStatusAndMessage error).2
      statusCode := (errorStatusAndMessage error).1 })

/-- C8: every error is translated to a response whose body has
success = false and a statusCode equal to the HTTP status; a plain error
whose name matches none of the recognized ones falls back to 500. -/
theorem errorHandler_envelope (e : ServerError) :
    (errorHandler e).2.success = false ∧
    (errorHandler e).2.statusCode = (errorHandler e).1 ∧
    (∀ name msg, e = .generic name msg →
      name ≠ "ValidationError" → name ≠ "JsonWebTokenError" →
      name ≠ "TokenExpiredError" → (errorHandler e).1 = 500) := by
  refine ⟨rfl, rfl, ?_⟩
  intro name msg he h1 h2 h3
  subst he
  unfold errorHandler errorStatusAndMessage
  simp [h1, h2, h3]

/-- Witness for C8: an unrecognized error name yields HTTP 500 with the
standard envelope. -/
theorem errorHandler_envelope_witness :
    (errorHandler (.generic "WeirdError" "boom")).2.success = false ∧
    (errorHandler (.generic "WeirdError" "boom")).2.statusCode
      = (errorHandler (.generic "WeirdError" "boom")).1 ∧
    (errorHandler (.generic "WeirdError" "boom")).1 = 500 := by
  have h := errorHandler_envelope (.generic "WeirdError" "boom")
  exact ⟨h.1, h.2.1, h.2.2 "WeirdError" "boom" rfl (by decide) (by decide)
    (by decide)⟩

end PremiumWebSuite
